import Mathlib

/-!
Verification of the mcn-qa-pytest conformance harness.

This file embeds the core behaviours of the repository in Lean 4:
the response classifier (`then_body_contains_vpc_id` in
`api/vpc/steps/test_vpc_creation.py`), the payload builders
(`given_vpc_details` there and `given_subnet_details` in
`api/subnet/steps/test_subnet_creation.py`), the retrying request
handler (`make_vpc_request`, retained inline in the same file) together
with the active `when_post_create_vpc` step, and the bulk orchestrators
(`create_vpcs` in `vpc_creation_wrapper.py`, `create_subnets` in
`subnet_creation_wrapper.py`).
-/

namespace McnQa

/-- Parsed JSON value, the shape of `response.json()` results inspected by
the response classifier.  Objects are association lists; Python dicts have
unique keys, and lookups below return the first binding. -/
inductive Json where
  | str : String → Json
  | num : Int → Json
  | bool : Bool → Json
  | null : Json
  | arr : List Json → Json
  | obj : List (String × Json) → Json

/-- Field lookup in a JSON object, the embedding of Python `dict.get`. -/
def jlookup (fields : List (String × Json)) (k : String) : Option Json :=
  match fields with
  | [] => none
  | (k0, v0) :: rest => if k0 = k then some v0 else jlookup rest k

/-- Embedding of Python `str.strip()`: drop leading and trailing
whitespace.  (Defined over the character list so that it evaluates by
kernel reduction; ASCII whitespace only.) -/
def pyStrip (s : String) : String :=
  String.mk
    (((s.data.dropWhile Char.isWhitespace).reverse.dropWhile
        Char.isWhitespace).reverse)

/-- Embedding of Python `s.startswith(pre)`. -/
def pyStartsWith (s pre : String) : Bool :=
  pre.data.isPrefixOf s.data

/-- Embedding of the guard pattern `case str(x) if x.strip():` used by the
classifier: succeeds on a string value whose stripped form is non-empty and
yields the stripped string. -/
def nonEmptyStr : Option Json → Option String
  | some (.str v) => if pyStrip v = "" then none else some (pyStrip v)
  | _ => none

/-- Embedding of the nested patterns such as
`case ("data" mapping to ("id" mapping to str(id_val))) if id_val.strip():`
— the body must hold `data` as an object containing the field as a
non-empty string. -/
def nestedDataStr (body : List (String × Json)) (field : String) : Option String :=
  match jlookup body "data" with
  | some (.obj d) => nonEmptyStr (jlookup d field)
  | _ => none

/-- Embedding of the final `case dict() as body:` fallback loop of
`then_body_contains_vpc_id` (test_vpc_creation.py lines 247-264): for
`field` in `(id, vpcId)`, try the top-level field, then the same field
nested under `data`. -/
def fallbackScan (body : List (String × Json)) : Option (String × String) :=
  match nonEmptyStr (jlookup body "id") with
  | some v => some (v, "fallback direct 'id' field")
  | none =>
    match nestedDataStr body "id" with
    | some v => some (v, "fallback nested 'data.id' field")
    | none =>
      match nonEmptyStr (jlookup body "vpcId") with
      | some v => some (v, "fallback direct 'vpcId' field")
      | none =>
        match nestedDataStr body "vpcId" with
        | some v => some (v, "fallback nested 'data.vpcId' field")
        | none => none

/-- Embedding of the `match resp_json:` cascade of
`then_body_contains_vpc_id` (test_vpc_creation.py lines 231-266).  Python
`match`/`case` tries the patterns in source order, first pattern whose
guard also holds wins.  Returns the extracted id and the extraction-method
string recorded by the code. -/
def extractVpcId (j : Json) : Option (String × String) :=
  match j with
  | .obj body =>
    match nonEmptyStr (jlookup body "id") with
    | some v => some (v, "direct 'id' field")
    | none =>
      match nonEmptyStr (jlookup body "vpcId") with
      | some v => some (v, "direct 'vpcId' field")
      | none =>
        match nestedDataStr body "id" with
        | some v => some (v, "nested 'data.id' field")
        | none =>
          match nestedDataStr body "vpcId" with
          | some v => some (v, "nested 'data.vpcId' field")
          | none => fallbackScan body
  | _ => none

/-- Outcome of the final `match vpc_id:` validation in
`then_body_contains_vpc_id` (test_vpc_creation.py lines 268-302). -/
inductive VpcIdCheck where
  | valid : String → VpcIdCheck
  | malformed : String → VpcIdCheck
  | notFound : VpcIdCheck
deriving DecidableEq, Repr

/-- Embedding of that validation: `case str(v) if v and v.startswith("vpc-")`
succeeds, `case str(v) if v` is the found-but-malformed assertion failure,
and the wildcard case is the id-not-found assertion failure. -/
def checkVpcId (vpcId : Option String) : VpcIdCheck :=
  match vpcId with
  | some v =>
    if v ≠ "" ∧ pyStartsWith v "vpc-" then .valid v
    else if v ≠ "" then .malformed v
    else .notFound
  | none => .notFound

/-- Extraction plus validation: the whole `then` step on a parsed body. -/
def classifyVpcBody (j : Json) : VpcIdCheck :=
  checkVpcId ((extractVpcId j).map Prod.fst)

/-- The identifier format the SPEC claims is enforced: `vpc-` followed by
at least 8 more characters.  Stated from the spec wording, for comparison
with `checkVpcId` (which the source defines with no length requirement). -/
def specVpcIdFormat (v : String) : Bool :=
  pyStartsWith v "vpc-" && decide (12 ≤ v.data.length)

/-! ### Payload builder (`given_vpc_details`, test_vpc_creation.py lines 102-140) -/

/-- Value stored in a built request payload: Python keeps strings, the
integer `cloudAccountId`, and the nested `tags` dict. -/
inductive PValue where
  | s : String → PValue
  | i : Int → PValue
  | tags : List (String × String) → PValue
deriving DecidableEq, Repr

/-- A request payload, a Python dict with string keys: an association list
whose keys stay unique because all writes go through `dictSet`. -/
abbrev Payload := List (String × PValue)

/-- Embedding of Python dict assignment `d[k] = v`: replace in place or
append. -/
def dictSet {α : Type} : List (String × α) → String → α → List (String × α)
  | [], k, v => [(k, v)]
  | (k0, v0) :: d, k, v =>
    if k0 = k then (k, v) :: d else (k0, v0) :: dictSet d k v

/-- Embedding of Python `d.get(k)` / `d[k]` lookup. -/
def dictGet {α : Type} : List (String × α) → String → Option α
  | [], _ => none
  | (k0, v0) :: d, k => if k0 = k then some v0 else dictGet d k

/-- Embedding of Python `d.setdefault(k, v)` (insertion part): keep `d`
when the key exists, otherwise append the default binding. -/
def dictSetdefault {α : Type} (d : List (String × α)) (k : String) (v : α) :
    List (String × α) :=
  match dictGet d k with
  | some _ => d
  | none => d ++ [(k, v)]

/-- Embedding of `raw.split("=", 1)` followed by `.strip()` on both parts:
split at the first `=`, keep any later `=` inside the value. -/
def splitEq1 (raw : String) : String × String :=
  (pyStrip (String.mk (raw.data.takeWhile (· ≠ '='))),
   pyStrip (String.mk ((raw.data.dropWhile (· ≠ '=')).drop 1)))

/-- Valid digit run for CPython `int(str)` after the optional sign: a
non-empty run of ASCII digits in which single underscores may appear
between digits (no leading, trailing or doubled underscore). -/
def pyDigitsValid (cs : List Char) : Bool :=
  (decide (cs ≠ [])) &&
  cs.all (fun c => c.isDigit || c = '_') &&
  (match cs.head? with | some c => decide (c ≠ '_') | none => false) &&
  (match cs.getLast? with | some c => decide (c ≠ '_') | none => false) &&
  ((cs.zip cs.tail).all fun p => !(p.1 = '_' && p.2 = '_'))

/-- Numeric value of an underscore-free ASCII digit run. -/
def digitsToNat (cs : List Char) : Nat :=
  cs.foldl (fun acc c => acc * 10 + (c.toNat - '0'.toNat)) 0

/-- Embedding of CPython `int(str)` on an already-stripped string: optional
sign, then digits with the underscore rule; `none` models the raised
`ValueError`.  (Non-ASCII Unicode digits, which CPython also accepts, are
not modelled.) -/
def pyInt (s : String) : Option Int :=
  match s.data with
  | '+' :: rest => if pyDigitsValid rest then some (digitsToNat (rest.filter (· ≠ '_'))) else none
  | '-' :: rest => if pyDigitsValid rest then some (-(digitsToNat (rest.filter (· ≠ '_')) : Int)) else none
  | rest => if pyDigitsValid rest then some (digitsToNat (rest.filter (· ≠ '_'))) else none

/-- The module-level `mcn` context dict, restricted to the two entries the
builder reads or writes: `aws_id` (set to the string "1" by
`given_registered_aws_account`) and `vpc_region`. -/
structure Mcn where
  awsId : Option String
  vpcRegion : Option String
deriving DecidableEq, Repr

/-- Embedding of `int(mcn.get("aws_id", 1))`: parse the stored string, or
use the integer default `1` when the key is absent. -/
def contextAccountId (m : Mcn) : Option Int :=
  match m.awsId with
  | some s => pyInt s
  | none => some 1

/-- Failure modes of the builders: `valueError` is the `int()` parse
failure, `typeError` the item assignment on a non-dict `tags` entry,
`emptyTable` the `assert False, "VPC details table was empty"` branch. -/
inductive BuildErr where
  | valueError
  | typeError
  | emptyTable
deriving DecidableEq, Repr

/-- Embedding of the `match key:` body of the parsing loop in
`given_vpc_details` (lines 111-124), one `key=value` line.  Python tries
the cases in order; `cloudResourceGroup` with a non-blank value falls
through to the wildcard case, which stores the value verbatim. -/
def processLineKV (p : Payload) (m : Mcn) (k0 v : String) :
    Except BuildErr (Payload × Mcn) :=
  if k0 = "cloudAccountId" then
    if v ≠ "" then
      match pyInt v with
      | some n => .ok (dictSet p k0 (.i n), m)
      | none => .error .valueError
    else
      match contextAccountId m with
      | some n => .ok (dictSet p k0 (.i n), m)
      | none => .error .valueError
  else if k0 = "tagName" then
    match dictGet p "tags" with
    | some (.tags t) => .ok (dictSet p "tags" (.tags (dictSet t "Name" v)), m)
    | some _ => .error .typeError
    | none => .ok (dictSet p "tags" (.tags [("Name", v)]), m)
  else if k0 = "cloudResourceGroup" ∧ v = "" then
    .ok (dictSet p k0 (.s ""), m)
  else if k0 = "cloudProvider" then
    .ok (dictSet p k0 (.s (if v = "" then "aws" else v)), m)
  else if k0 = "cloudRegion" then
    .ok (dictSet p k0 (.s v), { m with vpcRegion := some v })
  else
    .ok (dictSet p k0 (.s v), m)

/-- Embedding of the `for raw in docstring.strip().splitlines():` loop
(lines 105-124): skip lines without `=`, split and strip, dispatch on the
key. -/
def processVpcLines : List String → Payload → Mcn → Except BuildErr (Payload × Mcn)
  | [], p, m => .ok (p, m)
  | raw :: ls, p, m =>
    if raw.data.contains '=' then
      match processLineKV p m (splitEq1 raw).1 (splitEq1 raw).2 with
      | .error e => .error e
      | .ok (p1, m1) => processVpcLines ls p1 m1
    else processVpcLines ls p m

/-- Region string recovered by `vpc_data.get("cloudRegion", "us-east-1")`
(line 133). -/
def regionStr (p : Payload) : String :=
  match dictGet p "cloudRegion" with
  | some (.s r) => r
  | _ => "us-east-1"

/-- The four `setdefault` calls of `given_vpc_details` (lines 127-130), in
source order. -/
def vpcDefaults (p0 : Payload) (n : Int) : Payload :=
  dictSetdefault (dictSetdefault (dictSetdefault (dictSetdefault p0
    "cloudAccountId" (.i n)) "cloudProvider" (.s "aws"))
    "cloudResourceGroup" (.s "")) "cloudRegion" (.s "us-east-1")

/-- Tail of `given_vpc_details` once the account default `n` is known: the
`mcn["vpc_region"]` write (line 133) and the final emptiness assertion
(lines 135-140). -/
def vpcFinalize (p0 : Payload) (m1 : Mcn) (n : Int) :
    Except BuildErr (Payload × Mcn) :=
  if (vpcDefaults p0 n).isEmpty then .error .emptyTable
  else
    .ok (vpcDefaults p0 n,
      { m1 with vpcRegion := some (regionStr (vpcDefaults p0 n)) })

/-- Embedding of `given_vpc_details` on an already-split line list: the
parsing loop, the four `setdefault` calls (lines 127-130; note Python
evaluates `int(mcn.get("aws_id", 1))` eagerly, even when the key is
present, which is why the context account id is demanded before the
`setdefault`), the `mcn["vpc_region"]` write, and the final emptiness
assertion. -/
def buildVpcFromLines (ls : List String) (m : Mcn) :
    Except BuildErr (Payload × Mcn) :=
  match processVpcLines ls [] m with
  | .error e => .error e
  | .ok (p0, m1) =>
    match contextAccountId m1 with
    | none => .error .valueError
    | some n => vpcFinalize p0 m1 n

/-- Segments of a character list delimited by newline characters. -/
def splitNlAux : List Char → List (List Char)
  | [] => [[]]
  | c :: cs =>
    if c = '\n' then [] :: splitNlAux cs
    else
      match splitNlAux cs with
      | [] => [[c]]
      | l :: ls => (c :: l) :: ls

/-- Embedding of `docstring.strip().splitlines()` for newline-separated
text (the docstrings in this repository use plain newlines). -/
def linesOf (doc : String) : List String :=
  (splitNlAux (pyStrip doc).data).map String.mk

/-- The full `given_vpc_details` body on a docstring (after the optional
bulk-environment substitution, which only replaces the docstring by
another fixed table). -/
def buildVpcPayload (doc : String) (m : Mcn) : Except BuildErr (Payload × Mcn) :=
  buildVpcFromLines (linesOf doc) m

/-- Value (after stripping) of the last `key=value` line for a given key:
Python dict writes are last-wins across duplicate keys. -/
def lastVal : List String → String → Option String
  | [], _ => none
  | raw :: ls, k =>
    match lastVal ls k with
    | some v => some v
    | none =>
      if raw.data.contains '=' then
        if (splitEq1 raw).1 = k then some (splitEq1 raw).2 else none
      else none

/-! ### Subnet payload builder (`given_subnet_details`,
test_subnet_creation.py lines 78-88) -/

/-- Embedding of the subnet parsing loop: every key is stored verbatim
except `cloudAccountId`, which is passed to `int(val)` with no blank
guard — a blank or non-numeric value raises `ValueError`. -/
def processSubnetLines : List String → Payload → Except BuildErr Payload
  | [], p => .ok p
  | raw :: ls, p =>
    if raw.data.contains '=' then
      if (splitEq1 raw).1 = "cloudAccountId" then
        match pyInt (splitEq1 raw).2 with
        | some n => processSubnetLines ls (dictSet p "cloudAccountId" (.i n))
        | none => .error .valueError
      else
        processSubnetLines ls (dictSet p (splitEq1 raw).1 (.s (splitEq1 raw).2))
    else processSubnetLines ls p

/-- The full `given_subnet_details` body on an already-split line list. -/
def buildSubnetFromLines (ls : List String) : Except BuildErr Payload :=
  processSubnetLines ls []

/-- The full `given_subnet_details` body on a docstring. -/
def buildSubnetPayload (doc : String) : Except BuildErr Payload :=
  buildSubnetFromLines (linesOf doc)

/-! ### Request executor: the retrying handler `make_vpc_request`
(test_vpc_creation.py lines 991-1093, the most complete inline draft the
spec describes) and the active step `when_post_create_vpc`
(lines 145-172). -/

/-- Embedding of Python substring containment `needle in hay`. -/
def strContains (hay needle : String) : Bool :=
  decide (needle.data <:+: hay.data)

/-- What one `requests.post` call does: return a response (status, body
text, parsed JSON when the body parses) or raise one of the requests
exceptions the handler distinguishes (`Timeout`, `ConnectionError`, any
other `RequestException`). -/
inductive CallResult where
  | resp : Nat → String → Option Json → CallResult
  | timeoutExn : String → CallResult
  | connExn : String → CallResult
  | reqExn : String → CallResult

/-- True on the exception constructors of `CallResult`. -/
def CallResult.isExn : CallResult → Bool
  | .resp _ _ _ => false
  | _ => true

/-- The `api_response_data` dict built by `make_vpc_request`:
status code (0 for a network-level failure), body text, parsed body, and
the captured error message. -/
structure ApiOutcome where
  statusCode : Nat
  body : String
  parsedJson : Option Json
  errorMessage : Option String

/-- Result of a `make_vpc_request` run: the returned outcome, the number
of `requests.post` attempts actually made, and the backoff sleeps (in
seconds) taken between attempts, in order. -/
structure MvrResult where
  outcome : ApiOutcome
  attempts : Nat
  sleeps : List Nat

/-- The conflict signature retried by `make_vpc_request`. -/
def conflictSig : String := "Another update is currently in progress"

/-- Embedding of the `for attempt in range(max_retries):` loop of
`make_vpc_request`.  `calls i` is what the i-th `requests.post` does; the
fuel is the number of loop iterations left, so the loop body runs while
`attempt < maxRetries`.  A 400 response whose non-empty body contains the
conflict signature sleeps 60s and retries while `attempt < maxRetries - 1`;
`Timeout` and `ConnectionError` sleep 30s and retry under the same bound;
any other `RequestException` returns a synthesized statusCode-0 outcome at
once; an exhausted loop returns the "Maximum retries exceeded" outcome. -/
def mvrLoop (calls : Nat → CallResult) (maxRetries : Nat) :
    Nat → Nat → MvrResult
  | _, 0 =>
    ⟨⟨0, "", none, some "Maximum retries exceeded"⟩, 0, []⟩
  | attempt, fuel + 1 =>
    match calls attempt with
    | .resp st body parsed =>
      if st = 400 ∧ body ≠ "" ∧ strContains body conflictSig then
        if attempt < maxRetries - 1 then
          let r := mvrLoop calls maxRetries (attempt + 1) fuel
          ⟨r.outcome, r.attempts + 1, 60 :: r.sleeps⟩
        else ⟨⟨st, body, parsed, none⟩, 1, []⟩
      else ⟨⟨st, body, parsed, none⟩, 1, []⟩
    | .timeoutExn msg =>
      if attempt < maxRetries - 1 then
        let r := mvrLoop calls maxRetries (attempt + 1) fuel
        ⟨r.outcome, r.attempts + 1, 30 :: r.sleeps⟩
      else ⟨⟨0, "", none, some ("Request timed out: " ++ msg)⟩, 1, []⟩
    | .connExn msg =>
      if attempt < maxRetries - 1 then
        let r := mvrLoop calls maxRetries (attempt + 1) fuel
        ⟨r.outcome, r.attempts + 1, 30 :: r.sleeps⟩
      else ⟨⟨0, "", none, some ("Connection error: " ++ msg)⟩, 1, []⟩
    | .reqExn msg =>
      ⟨⟨0, "", none, some ("Request failed: " ++ msg)⟩, 1, []⟩

/-- `make_vpc_request(url, headers, payload, timeout, max_retries)` with
the HTTP transport abstracted into `calls`. -/
def make_vpc_request (maxRetries : Nat) (calls : Nat → CallResult) : MvrResult :=
  mvrLoop calls maxRetries 0 maxRetries

/-- The exception value carried by `requests.exceptions.RequestException`. -/
structure ReqException where
  msg : String
deriving DecidableEq, Repr

/-- Embedding of the ACTIVE `when_post_create_vpc` step (lines 145-172):
a successful `requests.post` stores the response; a raised
`RequestException` is logged and then re-raised (`raise` on line 172), so
the exception propagates to the caller. -/
def when_post_create_vpc (call : Except ReqException (Nat × String)) :
    Except ReqException (Nat × String) :=
  match call with
  | .ok r => .ok r
  | .error e => .error e

/-! ### Bulk orchestrators (`create_vpcs` in vpc_creation_wrapper.py,
`create_subnets` in subnet_creation_wrapper.py) -/

/-- ASCII digits of `n`, most significant first, by repeated division —
the decimal rendering used by Python `str`/`format` on a non-negative
integer.  Fuel-based so it is structurally recursive (any fuel above the
digit count gives the same answer; `n + 1` always suffices). -/
def decDigitsAux : Nat → Nat → List Char
  | 0, _ => []
  | fuel + 1, n =>
    if n < 10 then [Nat.digitChar n]
    else decDigitsAux fuel (n / 10) ++ [Nat.digitChar (n % 10)]

/-- Decimal digit list of `n`. -/
def decDigits (n : Nat) : List Char :=
  decDigitsAux (n + 1) n

/-- Character list of Python `f"(idx):02d"`-style formatting: the decimal
digits, zero-padded on the left to width 2. -/
def pad2L (n : Nat) : List Char :=
  if n < 10 then '0' :: decDigits n else decDigits n

/-- Embedding of the Python format expression used for bulk indices:
zero-padded two-wide decimal. -/
def pad2 (n : Nat) : String :=
  String.mk (pad2L n)

/-- VPC name generated for iteration `idx` of a bulk run with shared
timestamp `ts` (vpc_creation_wrapper.py line 65). -/
def makeVpcName (ts : String) (idx : Nat) : String :=
  ("bulk-vpc-" ++ ts ++ "-") ++ pad2 idx

/-- Stack name generated for iteration `idx` (line 66). -/
def makeStackName (ts : String) (idx : Nat) : String :=
  ("bulk-stack-" ++ ts ++ "-") ++ pad2 idx

/-- Subnet name generated for iteration `idx`
(subnet_creation_wrapper.py line 56). -/
def makeSubnetName (ts : String) (idx : Nat) : String :=
  ("bulk-subnet-" ++ ts ++ "-") ++ pad2 idx

/-- Subnet stack name generated for iteration `idx` (line 57). -/
def makeSubnetStackName (ts : String) (idx : Nat) : String :=
  ("bulk-subnet-stack-" ++ ts ++ "-") ++ pad2 idx

/-- Per-iteration parameter set a bulk VPC run passes to the scenario
through the `VPC_BULK_NAME` / `VPC_BULK_STACK` / `VPC_BULK_CIDR`
environment variables. -/
structure VpcIteration where
  vpcName : String
  stackName : String
  cidr : String
deriving DecidableEq, Repr

/-- Per-iteration parameter set of a bulk subnet run. -/
structure SubnetIteration where
  subnetName : String
  stackName : String
  cidr : String
  vpcId : String
deriving DecidableEq, Repr

/-- Embedding of `VPCBulkWrapper.create_vpcs(count, cidr_blocks)`
(lines 57-109): the two precondition checks raise `ValueError` before any
iteration runs; otherwise one shared timestamp is taken and iteration
`idx` in `range(count)` gets the generated names and `cidr_blocks[idx]`.
The returned list holds the parameter sets of the iterations in order. -/
def create_vpcs (ts : String) (count : Nat) (cidrBlocks : List String) :
    Except String (List VpcIteration) :=
  if count < 1 then .error "count must be positive"
  else if count > cidrBlocks.length then
    .error "count cannot exceed number of CIDR blocks supplied"
  else
    .ok ((List.range count).map fun idx =>
      ⟨makeVpcName ts idx, makeStackName ts idx, cidrBlocks.getD idx ""⟩)

/-- Embedding of `SubnetBulkWrapper.create_subnets(vpc_id, count,
cidr_blocks)` (lines 46-83), with its additional `vpc_id` prefix check
after the two count checks. -/
def create_subnets (ts : String) (vpcId : String) (count : Nat)
    (cidrBlocks : List String) : Except String (List SubnetIteration) :=
  if count < 1 then .error "count must be positive"
  else if count > cidrBlocks.length then
    .error "count cannot exceed number of CIDR blocks supplied"
  else if ¬ pyStartsWith vpcId "vpc-" then
    .error "vpc_id must start with vpc-"
  else
    .ok ((List.range count).map fun idx =>
      ⟨makeSubnetName ts idx, makeSubnetStackName ts idx,
       cidrBlocks.getD idx "", vpcId⟩)

/-! ### Concrete call sequences used to instantiate the executor
theorems -/

/-- Transport behaviour in which every attempt gets the conflict-signature
400 response. -/
def conflictCalls : Nat → CallResult :=
  fun _ => .resp 400 conflictSig none

/-- Transport behaviour in which every attempt times out. -/
def timeoutCalls : Nat → CallResult :=
  fun _ => .timeoutExn "HTTPConnectionPool read timed out"

/-! ## Theorems -/

/-! ### Request executor lemmas -/

theorem mvrLoop_exn_capture (calls : Nat → CallResult) (m : Nat)
    (h : ∀ i, (calls i).isExn = true) :
    ∀ (fuel attempt : Nat),
      (mvrLoop calls m attempt fuel).outcome.statusCode = 0 ∧
      ((mvrLoop calls m attempt fuel).outcome.errorMessage).isSome = true := by
  intro fuel
  induction fuel with
  | zero => intro attempt; exact ⟨rfl, rfl⟩
  | succ n ih =>
    intro attempt
    have hc := h attempt
    cases hcall : calls attempt with
    | resp st body parsed => rw [hcall] at hc; simp [CallResult.isExn] at hc
    | timeoutExn msg =>
      simp only [mvrLoop, hcall]
      split
      · exact ih (attempt + 1)
      · exact ⟨rfl, rfl⟩
    | connExn msg =>
      simp only [mvrLoop, hcall]
      split
      · exact ih (attempt + 1)
      · exact ⟨rfl, rfl⟩
    | reqExn msg =>
      simp [mvrLoop, hcall]

theorem mvrLoop_attempts_le (calls : Nat → CallResult) (m : Nat) :
    ∀ (fuel attempt : Nat), (mvrLoop calls m attempt fuel).attempts ≤ fuel := by
  intro fuel
  induction fuel with
  | zero => intro attempt; exact Nat.le_refl 0
  | succ n ih =>
    intro attempt
    cases hcall : calls attempt with
    | resp st body parsed =>
      simp only [mvrLoop, hcall]
      split
      · split
        · exact Nat.succ_le_succ (ih (attempt + 1))
        · exact Nat.succ_le_succ (Nat.zero_le n)
      · exact Nat.succ_le_succ (Nat.zero_le n)
    | timeoutExn msg =>
      simp only [mvrLoop, hcall]
      split
      · exact Nat.succ_le_succ (ih (attempt + 1))
      · exact Nat.succ_le_succ (Nat.zero_le n)
    | connExn msg =>
      simp only [mvrLoop, hcall]
      split
      · exact Nat.succ_le_succ (ih (attempt + 1))
      · exact Nat.succ_le_succ (Nat.zero_le n)
    | reqExn msg =>
      simp only [mvrLoop, hcall]
      exact Nat.succ_le_succ (Nat.zero_le n)

theorem mvrLoop_attempts_pos (calls : Nat → CallResult) (m : Nat)
    (fuel attempt : Nat) (hfuel : 1 ≤ fuel) :
    1 ≤ (mvrLoop calls m attempt fuel).attempts := by
  cases fuel with
  | zero => omega
  | succ n =>
    cases hcall : calls attempt with
    | resp st body parsed =>
      simp only [mvrLoop, hcall]
      split
      · split
        · exact Nat.succ_le_succ (Nat.zero_le _)
        · exact Nat.le_refl 1
      · exact Nat.le_refl 1
    | timeoutExn msg =>
      simp only [mvrLoop, hcall]
      split
      · exact Nat.succ_le_succ (Nat.zero_le _)
      · exact Nat.le_refl 1
    | connExn msg =>
      simp only [mvrLoop, hcall]
      split
      · exact Nat.succ_le_succ (Nat.zero_le _)
      · exact Nat.le_refl 1
    | reqExn msg =>
      simp only [mvrLoop, hcall]
      exact Nat.le_refl 1

/-! ### C1 — identifier extraction priority -/

/-- C1: identifier extraction over a parsed body is deterministic and
prioritized in the source order of the `match` cases: a non-empty
top-level string `id` wins over everything else; then top-level `vpcId`;
then nested `data.id`; then nested `data.vpcId`.  In particular the first
conjunct shows that whenever a non-empty top-level `id` is present —
regardless of any `data.vpcId` — the extracted identifier is that
top-level `id`. -/
theorem vpc_id_extraction_priority (body : List (String × Json)) :
    (∀ s, jlookup body "id" = some (.str s) → pyStrip s ≠ "" →
      extractVpcId (.obj body) = some (pyStrip s, "direct 'id' field"))
    ∧ (∀ w, nonEmptyStr (jlookup body "id") = none →
        jlookup body "vpcId" = some (.str w) → pyStrip w ≠ "" →
        extractVpcId (.obj body) = some (pyStrip w, "direct 'vpcId' field"))
    ∧ (∀ v, nonEmptyStr (jlookup body "id") = none →
        nonEmptyStr (jlookup body "vpcId") = none →
        nestedDataStr body "id" = some v →
        extractVpcId (.obj body) = some (v, "nested 'data.id' field"))
    ∧ (∀ v, nonEmptyStr (jlookup body "id") = none →
        nonEmptyStr (jlookup body "vpcId") = none →
        nestedDataStr body "id" = none →
        nestedDataStr body "vpcId" = some v →
        extractVpcId (.obj body) = some (v, "nested 'data.vpcId' field")) := by
  refine ⟨?_, ?_, ?_, ?_⟩
  · intro s hid hs
    simp only [extractVpcId]
    rw [hid]
    simp [nonEmptyStr, hs]
  · intro w hid hvpc hw
    simp only [extractVpcId, hid]
    rw [hvpc]
    simp [nonEmptyStr, hw]
  · intro v hid hvpc hd
    simp [extractVpcId, hid, hvpc, hd]
  · intro v hid hvpc hd hdv
    simp [extractVpcId, hid, hvpc, hd, hdv]

/-- Witness for C1 at a concrete body holding both a top-level `id` and a
nested `data.vpcId`: the top-level `id` wins. -/
theorem vpc_id_extraction_priority_witness :
    extractVpcId (.obj [("id", Json.str "vpc-0123456789"),
      ("data", Json.obj [("vpcId", Json.str "vpc-other")])]) =
      some ("vpc-0123456789", "direct 'id' field") := by
  have h := (vpc_id_extraction_priority
    [("id", Json.str "vpc-0123456789"),
     ("data", Json.obj [("vpcId", Json.str "vpc-other")])]).1
    "vpc-0123456789" rfl (by decide)
  have e : pyStrip "vpc-0123456789" = "vpc-0123456789" := by decide
  rw [e] at h
  exact h

/-! ### C7 — VPC id format validation -/

/-- C7 counterexample: the source validation accepts `"vpc-1"`, an
identifier with only one character after the `vpc-` prefix, while the
claim requires at least 8 more characters (`specVpcIdFormat`). -/
theorem vpc_id_format_counterexample :
    checkVpcId (some "vpc-1") = .valid "vpc-1" ∧
      specVpcIdFormat "vpc-1" = false := by
  constructor
  · decide
  · decide

/-- C7 amended: validation requires only the `vpc-` prefix (no minimum
length); a found-but-malformed identifier (non-empty, lacking the prefix)
is the distinct `malformed` failure mode, while a missing identifier is
`notFound`. -/
theorem vpc_id_format_amended (v : String) :
    (v ≠ "" → pyStartsWith v "vpc-" = true → checkVpcId (some v) = .valid v)
    ∧ (v ≠ "" → pyStartsWith v "vpc-" = false →
        checkVpcId (some v) = .malformed v)
    ∧ checkVpcId none = VpcIdCheck.notFound
    ∧ VpcIdCheck.malformed v ≠ VpcIdCheck.notFound := by
  refine ⟨?_, ?_, rfl, by simp⟩
  · intro h1 h2
    simp [checkVpcId, h1, h2]
  · intro h1 h2
    simp [checkVpcId, h1, h2]

/-- Witness for C7 amended: a short prefixed id is valid, a non-prefixed
id is the malformed failure. -/
theorem vpc_id_format_amended_witness :
    checkVpcId (some "vpc-1") = .valid "vpc-1" ∧
      checkVpcId (some "subnet-0a1b2c3d") = .malformed "subnet-0a1b2c3d" := by
  exact ⟨(vpc_id_format_amended "vpc-1").1 (by decide) (by decide),
    (vpc_id_format_amended "subnet-0a1b2c3d").2.1 (by decide) (by decide)⟩

/-! ### C3 — executor exception capture -/

/-- C3 counterexample: the ACTIVE request executor `when_post_create_vpc`
re-raises a `requests.exceptions.RequestException` (the bare `raise` on
line 172 of test_vpc_creation.py), so the caller receives a raised
failure, not a synthesized statusCode-0 outcome. -/
theorem executor_raises_counterexample :
    when_post_create_vpc (.error ⟨"Connection aborted"⟩) =
      .error ⟨"Connection aborted"⟩ := rfl

/-- C3 amended: the retry-capable handler `make_vpc_request` does capture
every exception raised during the call into a statusCode-0 outcome
carrying an error message and never raises; but the active step
`when_post_create_vpc` propagates a raised `RequestException` unchanged
(and only stores the response otherwise). -/
theorem executor_exception_capture :
    (∀ (m : Nat) (calls : Nat → CallResult),
      (∀ i, (calls i).isExn = true) →
      (make_vpc_request m calls).outcome.statusCode = 0 ∧
        ((make_vpc_request m calls).outcome.errorMessage).isSome = true)
    ∧ (∀ (e : ReqException) (r : Nat × String),
        when_post_create_vpc (.error e) = .error e ∧
        when_post_create_vpc (.ok r) = .ok r) := by
  constructor
  · intro m calls h
    exact mvrLoop_exn_capture calls m h m 0
  · intro e r
    exact ⟨rfl, rfl⟩

/-- Witness for C3 amended: an always-timing-out transport yields a
returned statusCode-0 outcome with a captured message. -/
theorem executor_exception_capture_witness :
    (make_vpc_request 2 timeoutCalls).outcome.statusCode = 0 ∧
      ((make_vpc_request 2 timeoutCalls).outcome.errorMessage).isSome = true := by
  exact executor_exception_capture.1 2 timeoutCalls (fun i => rfl)

/-! ### C4 — retry on the conflict signature -/

/-- C4 counterexample: with `max_retries = 1` — the default value of the
parameter, hence accepted by the contract — a 400 conflict-signature
response is returned after a single attempt, with no retry and no
backoff sleep. -/
theorem conflict_retry_counterexample :
    (make_vpc_request 1 conflictCalls).attempts = 1 ∧
      (make_vpc_request 1 conflictCalls).sleeps = [] ∧
      (make_vpc_request 1 conflictCalls).outcome.statusCode = 400 := by
  refine ⟨?_, ?_, ?_⟩ <;> decide

/-- C4 amended: when `maxRetries ≥ 2` and the first response is a 400
whose body contains the conflict substring, the executor retries at least
once — at least two attempts, at most `maxRetries` — and sleeps the fixed
60 seconds before the second attempt. -/
theorem conflict_retry (m : Nat) (calls : Nat → CallResult) (b : String)
    (p : Option Json) (hm : 2 ≤ m) (hcall : calls 0 = .resp 400 b p)
    (hconf : strContains b conflictSig = true) :
    2 ≤ (make_vpc_request m calls).attempts ∧
      (make_vpc_request m calls).attempts ≤ m ∧
      (make_vpc_request m calls).sleeps.head? = some 60 := by
  have hb : b ≠ "" := by
    intro hbe
    subst hbe
    exact absurd hconf (by decide)
  obtain ⟨k, rfl⟩ : ∃ k, m = k + 2 := ⟨m - 2, by omega⟩
  have hstep : make_vpc_request (k + 2) calls =
      ⟨(mvrLoop calls (k + 2) 1 (k + 1)).outcome,
        (mvrLoop calls (k + 2) 1 (k + 1)).attempts + 1,
        60 :: (mvrLoop calls (k + 2) 1 (k + 1)).sleeps⟩ := by
    show mvrLoop calls (k + 2) 0 (k + 1 + 1) = _
    simp only [mvrLoop, hcall]
    rw [if_pos ⟨trivial, hb, hconf⟩,
      if_pos (show (0 : Nat) < k + 2 - 1 by omega)]
  have h1 := mvrLoop_attempts_pos calls (k + 2) (k + 1) 1 (by omega)
  have h2 := mvrLoop_attempts_le calls (k + 2) (k + 1) 1
  rw [hstep]
  refine ⟨?_, ?_, rfl⟩
  · show 2 ≤ (mvrLoop calls (k + 2) 1 (k + 1)).attempts + 1
    omega
  · show (mvrLoop calls (k + 2) 1 (k + 1)).attempts + 1 ≤ k + 2
    omega

/-- Witness for C4 amended at `maxRetries = 2` with the conflict response
on every attempt. -/
theorem conflict_retry_witness :
    2 ≤ (make_vpc_request 2 conflictCalls).attempts ∧
      (make_vpc_request 2 conflictCalls).attempts ≤ 2 ∧
      (make_vpc_request 2 conflictCalls).sleeps.head? = some 60 :=
  conflict_retry 2 conflictCalls conflictSig none (by decide) rfl (by decide)

/-! ### C9 — bulk precondition checks fail fast -/

/-- C9: whenever `count < 1` or `count` exceeds the number of supplied
CIDR blocks, both bulk orchestrators raise `ValueError` before any
iteration is generated: no parameter set (hence no HTTP call) is
produced. -/
theorem bulk_preconditions_fail_fast (ts vpcId : String) (count : Nat)
    (cidrs : List String) (h : count < 1 ∨ cidrs.length < count) :
    (create_vpcs ts count cidrs).toOption = none ∧
      (create_subnets ts vpcId count cidrs).toOption = none := by
  by_cases h1 : count < 1
  · refine ⟨?_, ?_⟩
    · unfold create_vpcs
      rw [if_pos h1]
      rfl
    · unfold create_subnets
      rw [if_pos h1]
      rfl
  · have h2 : cidrs.length < count := by omega
    refine ⟨?_, ?_⟩
    · unfold create_vpcs
      rw [if_neg h1, if_pos h2]
      rfl
    · unfold create_subnets
      rw [if_neg h1, if_pos h2]
      rfl

/-- Witness for C9: `count = 3` with two CIDR blocks produces no
iterations for either orchestrator. -/
theorem bulk_preconditions_fail_fast_witness :
    (create_vpcs "20250101000000" 3 ["10.0.0.0/16", "10.1.0.0/16"]).toOption
        = none ∧
      (create_subnets "20250101000000" "vpc-0a1b2c3d4e" 3
        ["10.0.0.0/16", "10.1.0.0/16"]).toOption = none :=
  bulk_preconditions_fail_fast "20250101000000" "vpc-0a1b2c3d4e" 3
    ["10.0.0.0/16", "10.1.0.0/16"] (Or.inr (by decide))

/-! ### C2 — bulk name generation is collision-free -/

theorem decDigitsAux_irrel : ∀ (n f1 f2 : Nat), n < f1 → n < f2 →
    decDigitsAux f1 n = decDigitsAux f2 n := by
  intro n
  induction n using Nat.strong_induction_on with
  | _ n ih =>
    intro f1 f2 h1 h2
    obtain ⟨a, rfl⟩ : ∃ a, f1 = a + 1 := ⟨f1 - 1, by omega⟩
    obtain ⟨b, rfl⟩ : ∃ b, f2 = b + 1 := ⟨f2 - 1, by omega⟩
    by_cases hn : n < 10
    · simp [decDigitsAux, hn]
    · have hd : n / 10 < n := Nat.div_lt_self (by omega) (by norm_num)
      simp only [decDigitsAux, if_neg hn]
      rw [ih (n / 10) hd a b (by omega) (by omega)]

theorem decDigitsAux_ne_nil (f n : Nat) (h : n < f) : decDigitsAux f n ≠ [] := by
  obtain ⟨a, rfl⟩ : ∃ a, f = a + 1 := ⟨f - 1, by omega⟩
  by_cases hn : n < 10 <;> simp [decDigitsAux, hn]

theorem digitChar_inj_lt :
    ∀ a, a < 10 → ∀ b, b < 10 → Nat.digitChar a = Nat.digitChar b → a = b := by
  decide

theorem decDigits_split (n : Nat) (hn : ¬ n < 10) :
    decDigits n = decDigits (n / 10) ++ [Nat.digitChar (n % 10)] := by
  have hd : n / 10 < n := Nat.div_lt_self (by omega) (by norm_num)
  show decDigitsAux (n + 1) n = _
  simp only [decDigitsAux, if_neg hn]
  rw [decDigitsAux_irrel (n / 10) n (n / 10 + 1) (by omega) (by omega)]
  rfl

theorem decDigits_head_ne_zero : ∀ n, 1 ≤ n → (decDigits n).head? ≠ some '0' := by
  intro n
  induction n using Nat.strong_induction_on with
  | _ n ih =>
    intro hn1
    by_cases hn : n < 10
    · have e : decDigits n = [Nat.digitChar n] := by
        simp [decDigits, decDigitsAux, hn]
      rw [e]
      intro hc
      injection hc with hc2
      exact (by decide : ∀ k, k < 10 → 1 ≤ k → Nat.digitChar k ≠ '0') n hn hn1 hc2
    · have hd : n / 10 < n := Nat.div_lt_self (by omega) (by norm_num)
      have hd1 : 1 ≤ n / 10 := (Nat.one_le_div_iff (by norm_num)).mpr (by omega)
      rw [decDigits_split n hn]
      cases hdd : decDigits (n / 10) with
      | nil => exact absurd hdd (decDigitsAux_ne_nil (n / 10 + 1) (n / 10) (by omega))
      | cons c cs =>
        have hh := ih (n / 10) hd hd1
        rw [hdd] at hh
        simpa using hh

theorem decDigits_inj : ∀ n m : Nat, decDigits n = decDigits m → n = m := by
  intro n
  induction n using Nat.strong_induction_on with
  | _ n ih =>
    intro m h
    by_cases hn : n < 10 <;> by_cases hm : m < 10
    · simp [decDigits, decDigitsAux, hn, hm] at h
      exact digitChar_inj_lt n hn m hm h
    · exfalso
      have e1 : decDigits n = [Nat.digitChar n] := by
        simp [decDigits, decDigitsAux, hn]
      have hlp : 0 < (decDigits (m / 10)).length :=
        List.length_pos.mpr (decDigitsAux_ne_nil (m / 10 + 1) (m / 10) (by omega))
      have hlen := congrArg List.length h
      rw [e1, decDigits_split m hm, List.length_append] at hlen
      simp only [List.length_singleton] at hlen
      omega
    · exfalso
      have e1 : decDigits m = [Nat.digitChar m] := by
        simp [decDigits, decDigitsAux, hm]
      have hlp : 0 < (decDigits (n / 10)).length :=
        List.length_pos.mpr (decDigitsAux_ne_nil (n / 10 + 1) (n / 10) (by omega))
      have hlen := congrArg List.length h
      rw [e1, decDigits_split n hn, List.length_append] at hlen
      simp only [List.length_singleton] at hlen
      omega
    · rw [decDigits_split n hn, decDigits_split m hm] at h
      have hlen := congrArg List.length h
      simp at hlen
      obtain ⟨h1, h2⟩ := List.append_inj h (by omega)
      have hdiv := ih (n / 10) (Nat.div_lt_self (by omega) (by norm_num)) (m / 10) h1
      have hmod : n % 10 = m % 10 := by
        have h3 : Nat.digitChar (n % 10) = Nat.digitChar (m % 10) := by
          injection h2
        exact digitChar_inj_lt (n % 10) (Nat.mod_lt n (by norm_num)) (m % 10)
          (Nat.mod_lt m (by norm_num)) h3
      omega

theorem pad2L_inj : ∀ n m : Nat, pad2L n = pad2L m → n = m := by
  have hhead : ∀ n, ¬ n < 10 → (pad2L n).head? ≠ some '0' := by
    intro n hn
    simp only [pad2L, if_neg hn]
    exact decDigits_head_ne_zero n (by omega)
  intro n m h
  by_cases hn : n < 10 <;> by_cases hm : m < 10
  · simp [pad2L, hn, hm] at h
    exact decDigits_inj n m h
  · exfalso
    have h1 : (pad2L n).head? = some '0' := by simp [pad2L, hn]
    rw [h] at h1
    exact hhead m hm h1
  · exfalso
    have h1 : (pad2L m).head? = some '0' := by simp [pad2L, hm]
    rw [← h] at h1
    exact hhead n hn h1
  · simp only [pad2L, if_neg hn, if_neg hm] at h
    exact decDigits_inj n m h

theorem pad2_inj (n m : Nat) (h : pad2 n = pad2 m) : n = m :=
  pad2L_inj n m (congrArg String.data h)

theorem prefixed_pad2_inj (p : String) (i j : Nat)
    (h : p ++ pad2 i = p ++ pad2 j) : i = j := by
  apply pad2_inj
  have hd := congrArg String.data h
  rw [String.data_append, String.data_append] at hd
  exact String.ext (List.append_inj hd rfl).2

/-- C2: a bulk run whose `count` satisfies the preconditions produces
exactly `count` iterations whose resource and stack names have the shape
prefix-timestamp-zeropaddedindex with the one shared run timestamp `ts`,
and any two distinct iteration indices get distinct generated names (for
the VPC wrapper and the subnet wrapper alike). -/
theorem bulk_names_unique (ts : String) (count : Nat) (cidrs : List String)
    (h1 : 1 ≤ count) (h2 : count ≤ cidrs.length) :
    create_vpcs ts count cidrs =
      .ok ((List.range count).map fun idx =>
        ⟨makeVpcName ts idx, makeStackName ts idx, cidrs.getD idx ""⟩)
    ∧ ∀ i j : Nat, i ≠ j →
        makeVpcName ts i ≠ makeVpcName ts j ∧
        makeStackName ts i ≠ makeStackName ts j ∧
        makeSubnetName ts i ≠ makeSubnetName ts j ∧
        makeSubnetStackName ts i ≠ makeSubnetStackName ts j := by
  constructor
  · unfold create_vpcs
    rw [if_neg (by omega : ¬ count < 1),
      if_neg (by omega : ¬ count > cidrs.length)]
  · intro i j hij
    exact ⟨fun he => hij (prefixed_pad2_inj _ i j he),
      fun he => hij (prefixed_pad2_inj _ i j he),
      fun he => hij (prefixed_pad2_inj _ i j he),
      fun he => hij (prefixed_pad2_inj _ i j he)⟩

/-- Witness for C2 with `count = 2`: the concrete run result and the
distinctness of the two generated VPC names. -/
theorem bulk_names_unique_witness :
    create_vpcs "20250101000000" 2 ["10.0.0.0/16", "10.1.0.0/16"] =
      .ok [⟨"bulk-vpc-20250101000000-00", "bulk-stack-20250101000000-00",
            "10.0.0.0/16"⟩,
           ⟨"bulk-vpc-20250101000000-01", "bulk-stack-20250101000000-01",
            "10.1.0.0/16"⟩]
    ∧ makeVpcName "20250101000000" 0 ≠ makeVpcName "20250101000000" 1 := by
  have h := bulk_names_unique "20250101000000" 2 ["10.0.0.0/16", "10.1.0.0/16"]
    (by decide) (by decide)
  refine ⟨?_, (h.2 0 1 (by decide)).1⟩
  rw [h.1]
  rfl

/-! ### Dictionary lemmas for the payload builders -/

theorem ok_pair_inj {ε α β : Type} {x : α} {y : β} {p : α} {q : β}
    (h : (Except.ok (x, y) : Except ε (α × β)) = .ok (p, q)) :
    x = p ∧ y = q := by
  injection h with h1
  injection h1 with h2 h3
  exact ⟨h2, h3⟩

theorem dictGet_dictSet_self {α : Type} (d : List (String × α)) (k : String)
    (v : α) : dictGet (dictSet d k v) k = some v := by
  induction d with
  | nil => simp [dictSet, dictGet]
  | cons hd tl ih =>
    obtain ⟨k0, v0⟩ := hd
    by_cases h : k0 = k
    · simp [dictSet, dictGet, h]
    · simp [dictSet, dictGet, h, ih]

theorem dictGet_dictSet_ne {α : Type} (d : List (String × α)) (k1 t : String)
    (v : α) (h : k1 ≠ t) : dictGet (dictSet d k1 v) t = dictGet d t := by
  induction d with
  | nil => simp [dictSet, dictGet, h]
  | cons hd tl ih =>
    obtain ⟨k0, v0⟩ := hd
    by_cases h0 : k0 = k1
    · subst h0
      simp [dictSet, dictGet, h]
    · simp [dictSet, dictGet, h0, ih]

theorem dictGet_append_none {α : Type} (d e : List (String × α)) (k : String)
    (h : dictGet d k = none) : dictGet (d ++ e) k = dictGet e k := by
  induction d with
  | nil => rfl
  | cons hd tl ih =>
    obtain ⟨k0, v0⟩ := hd
    by_cases h0 : k0 = k
    · simp [dictGet, h0] at h
    · simp only [dictGet, if_neg h0] at h
      simp only [List.cons_append, dictGet, if_neg h0]
      exact ih h

theorem dictGet_setdefault_self {α : Type} (d : List (String × α)) (k : String)
    (v : α) :
    dictGet (dictSetdefault d k v) k = some ((dictGet d k).getD v) := by
  unfold dictSetdefault
  cases h : dictGet d k with
  | some x => simp [h]
  | none =>
    rw [dictGet_append_none d _ k h]
    simp [dictGet]

theorem dictGet_setdefault_ne {α : Type} (d : List (String × α)) (k1 t : String)
    (v : α) (h : k1 ≠ t) :
    dictGet (dictSetdefault d k1 v) t = dictGet d t := by
  unfold dictSetdefault
  cases h1 : dictGet d k1 with
  | some x => rfl
  | none =>
    induction d with
    | nil => simp [dictGet, h]
    | cons hd tl ih =>
      obtain ⟨k0, v0⟩ := hd
      by_cases h0 : k0 = t
      · simp [dictGet, h0]
      · simp only [dictGet, if_neg h0] at h1 ⊢
        by_cases h2 : k0 = k1
        · subst h2
          simp [dictGet] at h1
        · simp only [dictGet, if_neg h2] at h1
          exact ih h1

theorem dictSetdefault_ne_nil {α : Type} (d : List (String × α)) (k : String)
    (v : α) : dictSetdefault d k v ≠ [] := by
  unfold dictSetdefault
  cases h : dictGet d k with
  | some x =>
    cases d with
    | nil => simp [dictGet] at h
    | cons hd tl => simp
  | none => simp

/-! ### Per-branch behaviour of the `given_vpc_details` parsing loop -/

theorem processLineKV_account (p : Payload) (m : Mcn) (v : String)
    (p1 : Payload) (m1 : Mcn)
    (h : processLineKV p m "cloudAccountId" v = .ok (p1, m1)) :
    m1 = m ∧ ∃ n : Int, p1 = dictSet p "cloudAccountId" (.i n) ∧
      (v ≠ "" → pyInt v = some n) ∧
      (v = "" → contextAccountId m = some n) := by
  unfold processLineKV at h
  rw [if_pos rfl] at h
  by_cases hv : v = ""
  · rw [if_neg (fun hne => hne hv)] at h
    cases hc : contextAccountId m with
    | none => rw [hc] at h; simp at h
    | some n =>
      rw [hc] at h
      obtain ⟨rfl, rfl⟩ := ok_pair_inj h
      exact ⟨rfl, n, rfl, fun hne => absurd hv hne, fun _ => rfl⟩
  · rw [if_pos hv] at h
    cases hpi : pyInt v with
    | none => rw [hpi] at h; simp at h
    | some n =>
      rw [hpi] at h
      obtain ⟨rfl, rfl⟩ := ok_pair_inj h
      exact ⟨rfl, n, rfl, fun _ => rfl, fun he => absurd he hv⟩

theorem processLineKV_tag (p : Payload) (m : Mcn) (v : String)
    (p1 : Payload) (m1 : Mcn)
    (h : processLineKV p m "tagName" v = .ok (p1, m1)) :
    m1 = m ∧ ∃ t, p1 = dictSet p "tags" (.tags t) := by
  unfold processLineKV at h
  rw [if_neg (by decide), if_pos rfl] at h
  cases hdt : dictGet p "tags" with
  | none =>
    rw [hdt] at h
    obtain ⟨rfl, rfl⟩ := ok_pair_inj h
    exact ⟨rfl, _, rfl⟩
  | some pv =>
    rw [hdt] at h
    cases pv with
    | s w => simp at h
    | i n => simp at h
    | tags t =>
      obtain ⟨rfl, rfl⟩ := ok_pair_inj h
      exact ⟨rfl, _, rfl⟩

theorem processLineKV_group (p : Payload) (m : Mcn) (v : String)
    (p1 : Payload) (m1 : Mcn)
    (h : processLineKV p m "cloudResourceGroup" v = .ok (p1, m1)) :
    m1 = m ∧ p1 = dictSet p "cloudResourceGroup" (.s v) := by
  unfold processLineKV at h
  rw [if_neg (by decide), if_neg (by decide)] at h
  by_cases hv : v = ""
  · subst hv
    rw [if_pos ⟨rfl, rfl⟩] at h
    obtain ⟨rfl, rfl⟩ := ok_pair_inj h
    exact ⟨rfl, rfl⟩
  · rw [if_neg (fun hand => hv hand.2), if_neg (by decide), if_neg (by decide)] at h
    obtain ⟨rfl, rfl⟩ := ok_pair_inj h
    exact ⟨rfl, rfl⟩

theorem processLineKV_provider (p : Payload) (m : Mcn) (v : String)
    (p1 : Payload) (m1 : Mcn)
    (h : processLineKV p m "cloudProvider" v = .ok (p1, m1)) :
    m1 = m ∧ p1 = dictSet p "cloudProvider" (.s (if v = "" then "aws" else v)) := by
  unfold processLineKV at h
  rw [if_neg (by decide), if_neg (by decide),
    if_neg (fun hand => by exact absurd hand.1 (by decide)),
    if_pos rfl] at h
  obtain ⟨rfl, rfl⟩ := ok_pair_inj h
  exact ⟨rfl, rfl⟩

theorem processLineKV_region (p : Payload) (m : Mcn) (v : String)
    (p1 : Payload) (m1 : Mcn)
    (h : processLineKV p m "cloudRegion" v = .ok (p1, m1)) :
    m1 = { m with vpcRegion := some v } ∧
      p1 = dictSet p "cloudRegion" (.s v) := by
  unfold processLineKV at h
  rw [if_neg (by decide), if_neg (by decide),
    if_neg (fun hand => by exact absurd hand.1 (by decide)),
    if_neg (by decide), if_pos rfl] at h
  obtain ⟨rfl, rfl⟩ := ok_pair_inj h
  exact ⟨rfl, rfl⟩

theorem processLineKV_default (p : Payload) (m : Mcn) (k0 v : String)
    (p1 : Payload) (m1 : Mcn)
    (h1 : k0 ≠ "cloudAccountId") (h2 : k0 ≠ "tagName")
    (h3 : k0 ≠ "cloudResourceGroup") (h4 : k0 ≠ "cloudProvider")
    (h5 : k0 ≠ "cloudRegion")
    (h : processLineKV p m k0 v = .ok (p1, m1)) :
    m1 = m ∧ p1 = dictSet p k0 (.s v) := by
  unfold processLineKV at h
  rw [if_neg h1, if_neg h2, if_neg (fun hand => h3 hand.1), if_neg h4,
    if_neg h5] at h
  obtain ⟨rfl, rfl⟩ := ok_pair_inj h
  exact ⟨rfl, rfl⟩

theorem processLineKV_awsId (p : Payload) (m : Mcn) (k0 v : String)
    (p1 : Payload) (m1 : Mcn)
    (h : processLineKV p m k0 v = .ok (p1, m1)) : m1.awsId = m.awsId := by
  by_cases h1 : k0 = "cloudAccountId"
  · subst h1; rw [(processLineKV_account p m v p1 m1 h).1]
  by_cases h2 : k0 = "tagName"
  · subst h2; rw [(processLineKV_tag p m v p1 m1 h).1]
  by_cases h3 : k0 = "cloudResourceGroup"
  · subst h3; rw [(processLineKV_group p m v p1 m1 h).1]
  by_cases h4 : k0 = "cloudProvider"
  · subst h4; rw [(processLineKV_provider p m v p1 m1 h).1]
  by_cases h5 : k0 = "cloudRegion"
  · subst h5; rw [(processLineKV_region p m v p1 m1 h).1]
  · rw [(processLineKV_default p m k0 v p1 m1 h1 h2 h3 h4 h5 h).1]

theorem processLineKV_get_other (t : String) (ht : t ≠ "tags") (p : Payload)
    (m : Mcn) (k0 v : String) (p1 : Payload) (m1 : Mcn) (hk : k0 ≠ t)
    (h : processLineKV p m k0 v = .ok (p1, m1)) :
    dictGet p1 t = dictGet p t := by
  by_cases h1 : k0 = "cloudAccountId"
  · subst h1
    obtain ⟨-, n, rfl, -, -⟩ := processLineKV_account p m v p1 m1 h
    exact dictGet_dictSet_ne p _ t _ hk
  by_cases h2 : k0 = "tagName"
  · subst h2
    obtain ⟨-, tg, rfl⟩ := processLineKV_tag p m v p1 m1 h
    exact dictGet_dictSet_ne p _ t _ (fun he => ht he.symm)
  by_cases h3 : k0 = "cloudResourceGroup"
  · subst h3
    obtain ⟨-, rfl⟩ := processLineKV_group p m v p1 m1 h
    exact dictGet_dictSet_ne p _ t _ hk
  by_cases h4 : k0 = "cloudProvider"
  · subst h4
    obtain ⟨-, rfl⟩ := processLineKV_provider p m v p1 m1 h
    exact dictGet_dictSet_ne p _ t _ hk
  by_cases h5 : k0 = "cloudRegion"
  · subst h5
    obtain ⟨-, rfl⟩ := processLineKV_region p m v p1 m1 h
    exact dictGet_dictSet_ne p _ t _ hk
  · obtain ⟨-, rfl⟩ := processLineKV_default p m k0 v p1 m1 h1 h2 h3 h4 h5 h
    exact dictGet_dictSet_ne p _ t _ hk

/-! ### Loop invariants of the `given_vpc_details` parsing loop -/

theorem contextAccountId_congr (m m2 : Mcn) (h : m2.awsId = m.awsId) :
    contextAccountId m2 = contextAccountId m := by
  unfold contextAccountId
  rw [h]

theorem processVpcLines_cons_eq (raw : String) (ls : List String) (p : Payload)
    (m : Mcn) :
    processVpcLines (raw :: ls) p m =
      if raw.data.contains '=' then
        match processLineKV p m (splitEq1 raw).1 (splitEq1 raw).2 with
        | .error e => .error e
        | .ok (p1, m1) => processVpcLines ls p1 m1
      else processVpcLines ls p m := rfl

theorem lastVal_cons_eq (raw : String) (ls : List String) (t : String) :
    lastVal (raw :: ls) t =
      match lastVal ls t with
      | some v => some v
      | none =>
        if raw.data.contains '=' then
          if (splitEq1 raw).1 = t then some (splitEq1 raw).2 else none
        else none := rfl

theorem processVpcLines_awsId :
    ∀ (ls : List String) (p : Payload) (m : Mcn) (p1 : Payload) (m1 : Mcn),
      processVpcLines ls p m = .ok (p1, m1) → m1.awsId = m.awsId := by
  intro ls
  induction ls with
  | nil =>
    intro p m p1 m1 h
    obtain ⟨-, rfl⟩ := ok_pair_inj h
    rfl
  | cons raw ls ih =>
    intro p m p1 m1 h
    rw [processVpcLines_cons_eq] at h
    by_cases hc : raw.data.contains '=' = true
    · rw [if_pos hc] at h
      cases hpl : processLineKV p m (splitEq1 raw).1 (splitEq1 raw).2 with
      | error e => rw [hpl] at h; simp at h
      | ok pm =>
        obtain ⟨p2, m2⟩ := pm
        rw [hpl] at h
        rw [ih p2 m2 p1 m1 h, processLineKV_awsId p m _ _ p2 m2 hpl]
    · rw [if_neg hc] at h
      exact ih p m p1 m1 h

theorem processVpcLines_get_simple (t : String) (f : String → PValue)
    (ht : t ≠ "tags")
    (hstep : ∀ (p : Payload) (m : Mcn) (v : String) (p1 : Payload) (m1 : Mcn),
      processLineKV p m t v = .ok (p1, m1) → p1 = dictSet p t (f v)) :
    ∀ (ls : List String) (p : Payload) (m : Mcn) (p1 : Payload) (m1 : Mcn),
      processVpcLines ls p m = .ok (p1, m1) →
      dictGet p1 t = (match lastVal ls t with
        | some v => some (f v)
        | none => dictGet p t) := by
  intro ls
  induction ls with
  | nil =>
    intro p m p1 m1 h
    obtain ⟨rfl, rfl⟩ := ok_pair_inj h
    rfl
  | cons raw ls ih =>
    intro p m p1 m1 h
    rw [processVpcLines_cons_eq] at h
    rw [lastVal_cons_eq]
    by_cases hc : raw.data.contains '=' = true
    · rw [if_pos hc] at h
      cases hpl : processLineKV p m (splitEq1 raw).1 (splitEq1 raw).2 with
      | error e => rw [hpl] at h; simp at h
      | ok pm =>
        obtain ⟨p2, m2⟩ := pm
        rw [hpl] at h
        have ihh := ih p2 m2 p1 m1 h
        cases hlv : lastVal ls t with
        | some v =>
          rw [hlv] at ihh
          exact ihh
        | none =>
          rw [hlv] at ihh
          by_cases hk : (splitEq1 raw).1 = t
          · have hp2 := hstep p m (splitEq1 raw).2 p2 m2 (by rw [hk] at hpl; exact hpl)
            rw [ihh, hp2, dictGet_dictSet_self, if_pos hc, if_pos hk]
          · have hp2 := processLineKV_get_other t ht p m _ _ p2 m2 hk hpl
            rw [ihh, hp2, if_pos hc, if_neg hk]
    · rw [if_neg hc] at h
      have ihh := ih p m p1 m1 h
      cases hlv : lastVal ls t with
      | some v =>
        rw [hlv] at ihh
        exact ihh
      | none =>
        rw [hlv] at ihh
        rw [ihh, if_neg hc]

theorem processVpcLines_get_account :
    ∀ (ls : List String) (p : Payload) (m : Mcn) (p1 : Payload) (m1 : Mcn),
      processVpcLines ls p m = .ok (p1, m1) →
      (match lastVal ls "cloudAccountId" with
       | some v => ∃ n : Int, dictGet p1 "cloudAccountId" = some (.i n) ∧
           (v ≠ "" → pyInt v = some n) ∧ (v = "" → contextAccountId m = some n)
       | none =>
           dictGet p1 "cloudAccountId" = dictGet p "cloudAccountId") := by
  intro ls
  induction ls with
  | nil =>
    intro p m p1 m1 h
    obtain ⟨rfl, rfl⟩ := ok_pair_inj h
    exact rfl
  | cons raw ls ih =>
    intro p m p1 m1 h
    rw [processVpcLines_cons_eq] at h
    rw [lastVal_cons_eq]
    by_cases hc : raw.data.contains '=' = true
    · rw [if_pos hc] at h
      cases hpl : processLineKV p m (splitEq1 raw).1 (splitEq1 raw).2 with
      | error e => rw [hpl] at h; simp at h
      | ok pm =>
        obtain ⟨p2, m2⟩ := pm
        rw [hpl] at h
        have hmeq : contextAccountId m2 = contextAccountId m :=
          contextAccountId_congr m m2 (processLineKV_awsId p m _ _ p2 m2 hpl)
        have ihh := ih p2 m2 p1 m1 h
        cases hlv : lastVal ls "cloudAccountId" with
        | some v =>
          rw [hlv] at ihh
          obtain ⟨n, hg, hne, hbl⟩ := ihh
          exact ⟨n, hg, hne, fun hbv => by rw [← hmeq]; exact hbl hbv⟩
        | none =>
          rw [hlv] at ihh
          by_cases hk : (splitEq1 raw).1 = "cloudAccountId"
          · obtain ⟨-, n, hp2, hne, hbl⟩ :=
              processLineKV_account p m (splitEq1 raw).2 p2 m2
                (by rw [hk] at hpl; exact hpl)
            rw [if_pos hc, if_pos hk]
            exact ⟨n, by rw [ihh, hp2, dictGet_dictSet_self], hne, hbl⟩
          · have hp2 := processLineKV_get_other "cloudAccountId" (by decide)
              p m _ _ p2 m2 hk hpl
            rw [if_pos hc, if_neg hk, ihh, hp2]
    · rw [if_neg hc] at h
      have ihh := ih p m p1 m1 h
      cases hlv : lastVal ls "cloudAccountId" with
      | some v =>
        rw [hlv] at ihh
        exact ihh
      | none =>
        rw [hlv] at ihh
        rw [if_neg hc]
        exact ihh

/-! ### Builder result shape and default lookups -/

theorem buildVpc_ok_shape (ls : List String) (m : Mcn) (p : Payload) (m2 : Mcn)
    (h : buildVpcFromLines ls m = .ok (p, m2)) :
    ∃ (p0 : Payload) (m1 : Mcn) (n : Int),
      processVpcLines ls [] m = .ok (p0, m1) ∧
      contextAccountId m1 = some n ∧ p = vpcDefaults p0 n := by
  unfold buildVpcFromLines at h
  split at h
  · exact absurd h (by simp)
  · rename_i p0 m1 heq
    split at h
    · exact absurd h (by simp)
    · rename_i n hctx
      have hne : vpcDefaults p0 n ≠ [] := by
        unfold vpcDefaults
        exact dictSetdefault_ne_nil _ _ _
      unfold vpcFinalize at h
      rw [if_neg (fun hie => hne (List.isEmpty_iff.mp hie))] at h
      obtain ⟨rfl, rfl⟩ := ok_pair_inj h
      exact ⟨p0, m1, n, heq, hctx, rfl⟩

theorem vpcDefaults_get_account (p0 : Payload) (n : Int) :
    dictGet (vpcDefaults p0 n) "cloudAccountId" =
      some ((dictGet p0 "cloudAccountId").getD (.i n)) := by
  have e1 : ("cloudRegion" : String) ≠ "cloudAccountId" := by decide
  have e2 : ("cloudResourceGroup" : String) ≠ "cloudAccountId" := by decide
  have e3 : ("cloudProvider" : String) ≠ "cloudAccountId" := by decide
  unfold vpcDefaults
  rw [dictGet_setdefault_ne _ _ _ _ e1, dictGet_setdefault_ne _ _ _ _ e2,
    dictGet_setdefault_ne _ _ _ _ e3, dictGet_setdefault_self]

theorem vpcDefaults_get_provider (p0 : Payload) (n : Int) :
    dictGet (vpcDefaults p0 n) "cloudProvider" =
      some ((dictGet p0 "cloudProvider").getD (.s "aws")) := by
  have e1 : ("cloudRegion" : String) ≠ "cloudProvider" := by decide
  have e2 : ("cloudResourceGroup" : String) ≠ "cloudProvider" := by decide
  have e3 : ("cloudAccountId" : String) ≠ "cloudProvider" := by decide
  unfold vpcDefaults
  rw [dictGet_setdefault_ne _ _ _ _ e1, dictGet_setdefault_ne _ _ _ _ e2,
    dictGet_setdefault_self, dictGet_setdefault_ne _ _ _ _ e3]

theorem vpcDefaults_get_group (p0 : Payload) (n : Int) :
    dictGet (vpcDefaults p0 n) "cloudResourceGroup" =
      some ((dictGet p0 "cloudResourceGroup").getD (.s "")) := by
  have e1 : ("cloudRegion" : String) ≠ "cloudResourceGroup" := by decide
  have e2 : ("cloudProvider" : String) ≠ "cloudResourceGroup" := by decide
  have e3 : ("cloudAccountId" : String) ≠ "cloudResourceGroup" := by decide
  unfold vpcDefaults
  rw [dictGet_setdefault_ne _ _ _ _ e1, dictGet_setdefault_self,
    dictGet_setdefault_ne _ _ _ _ e2, dictGet_setdefault_ne _ _ _ _ e3]

theorem vpcDefaults_get_region (p0 : Payload) (n : Int) :
    dictGet (vpcDefaults p0 n) "cloudRegion" =
      some ((dictGet p0 "cloudRegion").getD (.s "us-east-1")) := by
  have e1 : ("cloudResourceGroup" : String) ≠ "cloudRegion" := by decide
  have e2 : ("cloudProvider" : String) ≠ "cloudRegion" := by decide
  have e3 : ("cloudAccountId" : String) ≠ "cloudRegion" := by decide
  unfold vpcDefaults
  rw [dictGet_setdefault_self, dictGet_setdefault_ne _ _ _ _ e1,
    dictGet_setdefault_ne _ _ _ _ e2, dictGet_setdefault_ne _ _ _ _ e3]

/-! ### C5 — required fields always present, with the defaulting order -/

/-- C5: whenever `given_vpc_details` builds a payload, the four required
keys are present: `cloudAccountId` is always set (explicit parse, else
prior-context account id, else the hardcoded `1` — detailed in the C6
theorem), and each of `cloudProvider` / `cloudRegion` /
`cloudResourceGroup` carries the explicit table value of its last
`key=value` line when one is given (a blank `cloudProvider` falls back to
`"aws"`), and otherwise the hardcoded fallback `"aws"` / `"us-east-1"` /
`""`. -/
theorem payload_required_fields (ls : List String) (m : Mcn) (p : Payload)
    (m2 : Mcn) (h : buildVpcFromLines ls m = .ok (p, m2)) :
    ((dictGet p "cloudAccountId").isSome = true)
    ∧ dictGet p "cloudProvider" =
        some (.s (match lastVal ls "cloudProvider" with
          | some v => if v = "" then "aws" else v
          | none => "aws"))
    ∧ dictGet p "cloudRegion" =
        some (.s (match lastVal ls "cloudRegion" with
          | some v => v
          | none => "us-east-1"))
    ∧ dictGet p "cloudResourceGroup" =
        some (.s (match lastVal ls "cloudResourceGroup" with
          | some v => v
          | none => "")) := by
  obtain ⟨p0, m1, n, hp, hctx, rfl⟩ := buildVpc_ok_shape ls m p m2 h
  refine ⟨?_, ?_, ?_, ?_⟩
  · rw [vpcDefaults_get_account]
    rfl
  · have hchar := processVpcLines_get_simple "cloudProvider"
      (fun v => PValue.s (if v = "" then "aws" else v)) (by decide)
      (fun p m v p1 m1 hh => (processLineKV_provider p m v p1 m1 hh).2)
      ls [] m p0 m1 hp
    rw [vpcDefaults_get_provider]
    cases hlv : lastVal ls "cloudProvider" with
    | some v => rw [hlv] at hchar; rw [hchar]; rfl
    | none => rw [hlv] at hchar; rw [hchar]; rfl
  · have hchar := processVpcLines_get_simple "cloudRegion"
      (fun v => PValue.s v) (by decide)
      (fun p m v p1 m1 hh => (processLineKV_region p m v p1 m1 hh).2)
      ls [] m p0 m1 hp
    rw [vpcDefaults_get_region]
    cases hlv : lastVal ls "cloudRegion" with
    | some v => rw [hlv] at hchar; rw [hchar]; rfl
    | none => rw [hlv] at hchar; rw [hchar]; rfl
  · have hchar := processVpcLines_get_simple "cloudResourceGroup"
      (fun v => PValue.s v) (by decide)
      (fun p m v p1 m1 hh => (processLineKV_group p m v p1 m1 hh).2)
      ls [] m p0 m1 hp
    rw [vpcDefaults_get_group]
    cases hlv : lastVal ls "cloudResourceGroup" with
    | some v => rw [hlv] at hchar; rw [hchar]; rfl
    | none => rw [hlv] at hchar; rw [hchar]; rfl

/-- Witness for C5: a table with only a `name` line gets all four
required keys defaulted. -/
theorem payload_required_fields_witness :
    ((dictGet [("name", PValue.s "test-vpc"), ("cloudAccountId", PValue.i 1),
        ("cloudProvider", PValue.s "aws"), ("cloudResourceGroup", PValue.s ""),
        ("cloudRegion", PValue.s "us-east-1")] "cloudAccountId").isSome = true)
    ∧ dictGet [("name", PValue.s "test-vpc"), ("cloudAccountId", PValue.i 1),
        ("cloudProvider", PValue.s "aws"), ("cloudResourceGroup", PValue.s ""),
        ("cloudRegion", PValue.s "us-east-1")] "cloudProvider" =
        some (.s "aws") := by
  have h := payload_required_fields ["name=test-vpc"] ⟨some "1", none⟩
    [("name", PValue.s "test-vpc"), ("cloudAccountId", PValue.i 1),
     ("cloudProvider", PValue.s "aws"), ("cloudResourceGroup", PValue.s ""),
     ("cloudRegion", PValue.s "us-east-1")] ⟨some "1", some "us-east-1"⟩ rfl
  exact ⟨h.1, h.2.1⟩

/-! ### C6 — cloudAccountId coercion and defaulting -/

/-- C6: when the (last) `cloudAccountId` line of the table carries a
non-blank value that parses as an integer, the built payload stores that
integer; when the line is absent or blank, the payload stores the
context-supplied account id (`int(mcn.get("aws_id", 1))`, so `1` when the
context has no `aws_id`). -/
theorem payload_account_id (ls : List String) (m : Mcn) (p : Payload)
    (m2 : Mcn) (h : buildVpcFromLines ls m = .ok (p, m2)) :
    (∀ (v : String) (n : Int), lastVal ls "cloudAccountId" = some v →
      v ≠ "" → pyInt v = some n →
      dictGet p "cloudAccountId" = some (.i n))
    ∧ (∀ a : Int,
        (lastVal ls "cloudAccountId" = none ∨
          lastVal ls "cloudAccountId" = some "") →
        contextAccountId m = some a →
        dictGet p "cloudAccountId" = some (.i a)) := by
  obtain ⟨p0, m1, n0, hp, hctx, rfl⟩ := buildVpc_ok_shape ls m p m2 h
  have hctxm : contextAccountId m = some n0 := by
    rw [← contextAccountId_congr m m1 (processVpcLines_awsId ls [] m p0 m1 hp)]
    exact hctx
  have hacct := processVpcLines_get_account ls [] m p0 m1 hp
  constructor
  · intro v n hlv hv hpi
    rw [hlv] at hacct
    obtain ⟨n1, hget, hne, -⟩ := hacct
    have he : some n1 = some n := by rw [← hpi]; exact (hne hv).symm
    injection he with he2
    rw [vpcDefaults_get_account, hget]
    rw [he2]
    rfl
  · intro a hor hctxa
    have ha2 : a = n0 := by
      rw [hctxm] at hctxa
      exact (Option.some.inj hctxa).symm
    subst ha2
    cases hor with
    | inl hnone =>
      rw [hnone] at hacct
      rw [vpcDefaults_get_account, hacct]
      rfl
    | inr hblank =>
      rw [hblank] at hacct
      obtain ⟨n1, hget, -, hbl⟩ := hacct
      have he : some n1 = some a := by rw [← hctxm]; exact (hbl rfl).symm
      injection he with he2
      rw [vpcDefaults_get_account, hget, he2]
      rfl

/-- Witness for C6: a table with `cloudAccountId=7` stores the integer 7;
a table with a blank `cloudAccountId=` stores the context account id 5. -/
theorem payload_account_id_witness :
    dictGet [("cloudAccountId", PValue.i 7), ("cloudProvider", PValue.s "aws"),
        ("cloudResourceGroup", PValue.s ""),
        ("cloudRegion", PValue.s "us-east-1")] "cloudAccountId" =
      some (.i 7)
    ∧ dictGet [("cloudAccountId", PValue.i 5), ("cloudProvider", PValue.s "aws"),
        ("cloudResourceGroup", PValue.s ""),
        ("cloudRegion", PValue.s "us-east-1")] "cloudAccountId" =
      some (.i 5) := by
  have h1 := payload_account_id ["cloudAccountId=7"] ⟨some "1", none⟩
    [("cloudAccountId", PValue.i 7), ("cloudProvider", PValue.s "aws"),
     ("cloudResourceGroup", PValue.s ""),
     ("cloudRegion", PValue.s "us-east-1")] ⟨some "1", some "us-east-1"⟩ rfl
  have h2 := payload_account_id ["cloudAccountId="] ⟨some "5", none⟩
    [("cloudAccountId", PValue.i 5), ("cloudProvider", PValue.s "aws"),
     ("cloudResourceGroup", PValue.s ""),
     ("cloudRegion", PValue.s "us-east-1")] ⟨some "5", some "us-east-1"⟩ rfl
  exact ⟨h1.1 "7" 7 rfl (by decide) rfl, h2.2 5 (Or.inr rfl) rfl⟩

/-! ### C8 — the empty-table assertion is unreachable -/

theorem processVpcLines_skip_all :
    ∀ (ls : List String) (p : Payload) (m : Mcn),
      (∀ raw ∈ ls, raw.data.contains '=' = false) →
      processVpcLines ls p m = .ok (p, m) := by
  intro ls
  induction ls with
  | nil => intro p m hall; rfl
  | cons raw ls ih =>
    intro p m hall
    rw [processVpcLines_cons_eq,
      if_neg (by rw [hall raw (List.mem_cons_self raw ls)]
                 exact Bool.false_ne_true)]
    exact ih p m (fun r hr => hall r (List.mem_cons_of_mem raw hr))

/-- C8: on a source table that is empty after parsing (no line contains
`=`), `given_vpc_details` does NOT fail: the four `setdefault` calls run
before the emptiness check, so the builder returns the fully defaulted
payload and the `assert False, "VPC details table was empty"` branch is
unreachable. -/
theorem empty_table_no_failure (ls : List String) (m : Mcn) (a : Int)
    (hls : ∀ raw ∈ ls, raw.data.contains '=' = false)
    (hctx : contextAccountId m = some a) :
    buildVpcFromLines ls m =
      .ok ([("cloudAccountId", .i a), ("cloudProvider", .s "aws"),
            ("cloudResourceGroup", .s ""), ("cloudRegion", .s "us-east-1")],
           { m with vpcRegion := some "us-east-1" }) := by
  unfold buildVpcFromLines
  rw [processVpcLines_skip_all ls [] m hls]
  show (match contextAccountId m with
    | none => (Except.error BuildErr.valueError : Except BuildErr (Payload × Mcn))
    | some n => vpcFinalize [] m n) = _
  rw [hctx]
  rfl

/-- Witness for C8: the empty docstring (one blank line, no `=`) yields
the defaulted four-key payload, not a failure. -/
theorem empty_table_no_failure_witness :
    buildVpcFromLines [""] ⟨some "1", none⟩ =
      .ok ([("cloudAccountId", .i 1), ("cloudProvider", .s "aws"),
            ("cloudResourceGroup", .s ""), ("cloudRegion", .s "us-east-1")],
           ⟨some "1", some "us-east-1"⟩) :=
  empty_table_no_failure [""] ⟨some "1", none⟩ 1 (by decide) rfl

/-! ### C10 — the subnet builder's cloudAccountId coercion is partial -/

/-- C10: the subnet payload builder passes every `cloudAccountId` value
straight to `int(val)` with no blank guard, so a table containing a
`cloudAccountId` line whose value is blank or non-numeric raises
`ValueError` and produces no payload — unlike the VPC builder, which (as
the second conjunct shows on a concrete blank line) substitutes the
context account id. -/
theorem subnet_account_id_partial :
    (∀ (ls : List String) (raw : String), raw ∈ ls →
      raw.data.contains '=' = true → (splitEq1 raw).1 = "cloudAccountId" →
      pyInt (splitEq1 raw).2 = none →
      buildSubnetFromLines ls = .error .valueError)
    ∧ buildVpcFromLines ["cloudAccountId="] ⟨some "1", none⟩ =
        .ok ([("cloudAccountId", .i 1), ("cloudProvider", .s "aws"),
              ("cloudResourceGroup", .s ""), ("cloudRegion", .s "us-east-1")],
             ⟨some "1", some "us-east-1"⟩) := by
  constructor
  · have main : ∀ (ls : List String) (p : Payload) (raw : String), raw ∈ ls →
        raw.data.contains '=' = true → (splitEq1 raw).1 = "cloudAccountId" →
        pyInt (splitEq1 raw).2 = none →
        processSubnetLines ls p = .error .valueError := by
      intro ls
      induction ls with
      | nil =>
        intro p raw hmem
        simp at hmem
      | cons l ls ih =>
        intro p raw hmem hc hk hpi
        rcases List.mem_cons.mp hmem with rfl | hmem2
        · show (if raw.data.contains '=' then
              if (splitEq1 raw).1 = "cloudAccountId" then
                match pyInt (splitEq1 raw).2 with
                | some n => processSubnetLines ls (dictSet p "cloudAccountId" (.i n))
                | none => .error .valueError
              else processSubnetLines ls (dictSet p (splitEq1 raw).1 (.s (splitEq1 raw).2))
            else processSubnetLines ls p) = .error .valueError
          rw [if_pos hc, if_pos hk, hpi]
        · show (if l.data.contains '=' then
              if (splitEq1 l).1 = "cloudAccountId" then
                match pyInt (splitEq1 l).2 with
                | some n => processSubnetLines ls (dictSet p "cloudAccountId" (.i n))
                | none => .error .valueError
              else processSubnetLines ls (dictSet p (splitEq1 l).1 (.s (splitEq1 l).2))
            else processSubnetLines ls p) = .error .valueError
          by_cases hc1 : l.data.contains '=' = true
          · rw [if_pos hc1]
            by_cases hk1 : (splitEq1 l).1 = "cloudAccountId"
            · rw [if_pos hk1]
              cases hpi1 : pyInt (splitEq1 l).2 with
              | some n => exact ih _ raw hmem2 hc hk hpi
              | none => rfl
            · rw [if_neg hk1]
              exact ih _ raw hmem2 hc hk hpi
          · rw [if_neg hc1]
            exact ih p raw hmem2 hc hk hpi
    intro ls raw hmem hc hk hpi
    exact main ls [] raw hmem hc hk hpi
  · rfl

/-- Witness for C10: the table line `cloudAccountId=abc` makes the subnet
builder raise `ValueError`. -/
theorem subnet_account_id_partial_witness :
    buildSubnetFromLines ["cloudAccountId=abc"] = .error .valueError :=
  subnet_account_id_partial.1 ["cloudAccountId=abc"] "cloudAccountId=abc"
    (by decide) (by decide) (by decide) (by decide)

end McnQa
